import Mathlib

/-!
Verification of the unigraph-routes request gate: the two CORS origin-policy
evaluators (src/api/middleware/cors.ts and the Vercel-aware variant), the two
authenticateUser versions (src/api/middleware/auth.ts, canonical, and the
historical module-level-whitelist version), and the protected chat handler.

Conventions of the shallow embedding:
- process environment: a record of optional string values; JS truthiness of a
  string value (undefined or empty string is falsy) is the function truthy.
- the mutable VercelResponse object: a Response record threaded through each
  function; res.setHeader overwrites a field, res.status(...).json(...) and
  res.status(...).end() fill status and body and end the response.
- the Supabase call supabase.auth.getUser: per the supabase-js contract this
  returns a record with data.user and error and does not throw (network
  failures are returned as an error value), so it is embedded as a
  VerifyOutcome value supplied to the function; the token that would be sent
  is recorded in the authorityToken field of the result (none means the
  external identity authority is never called).
-/

/-- Keys of the process environment variables the gate reads. -/
inductive EnvKey where
  | ALLOWED_ORIGINS
  | CORS_ALLOW_ALL
  | VERCEL_URL
  | VERCEL_ENV
  | NODE_ENV
  | APPROVED_USERS
  | SUPABASE_URL
  | SUPABASE_ANON_KEY
deriving DecidableEq, Repr

/-- A snapshot of the process environment: each variable is either unset
(none) or set to a string (possibly empty). -/
structure Env where
  ALLOWED_ORIGINS : Option String := none
  CORS_ALLOW_ALL : Option String := none
  VERCEL_URL : Option String := none
  VERCEL_ENV : Option String := none
  NODE_ENV : Option String := none
  APPROVED_USERS : Option String := none
  SUPABASE_URL : Option String := none
  SUPABASE_ANON_KEY : Option String := none
deriving DecidableEq, Repr

/-- Direct lookup process.env[key]. -/
def Env.lookup (env : Env) : EnvKey → Option String
  | EnvKey.ALLOWED_ORIGINS => env.ALLOWED_ORIGINS
  | EnvKey.CORS_ALLOW_ALL => env.CORS_ALLOW_ALL
  | EnvKey.VERCEL_URL => env.VERCEL_URL
  | EnvKey.VERCEL_ENV => env.VERCEL_ENV
  | EnvKey.NODE_ENV => env.NODE_ENV
  | EnvKey.APPROVED_USERS => env.APPROVED_USERS
  | EnvKey.SUPABASE_URL => env.SUPABASE_URL
  | EnvKey.SUPABASE_ANON_KEY => env.SUPABASE_ANON_KEY

/-- JS truthiness of an optional string: undefined and the empty string are
falsy, every other string is truthy. -/
def truthy : Option String → Bool
  | none => false
  | some s => s != ""

/-- JS expression (o || d) on an optional string with a string default: the
default is taken when o is undefined or the empty string. -/
def jsOr (o : Option String) (d : String) : String :=
  match o with
  | none => d
  | some s => if s == "" then d else s

/-- Embeds getEnvVar of src/unnamed/part_000 (lines 8 to 14): reads
process.env[key] when a process object exists (it does in the Node runtime
modelled here). -/
def getEnvVarCors (env : Env) (key : EnvKey) : Option String :=
  env.lookup key

/-- Modelled from the spec: getEnvVar of src/api/utils/envUtils.ts is imported
by src/api/middleware/auth.ts but the file itself is not in the source tree;
the spec (sections 6 and 9) says configuration is environment-sourced and read
at call time, so the fallback is modelled as the environment lookup itself. -/
def getEnvVarUtil (env : Env) (key : EnvKey) : Option String :=
  env.lookup key

/-- Embeds getEnvValue of src/api/middleware/auth.ts (lines 15 to 22): returns
process.env[key] when truthy, otherwise falls back to getEnvVar. -/
def getEnvValue (env : Env) (key : EnvKey) : Option String :=
  if truthy (env.lookup key) then env.lookup key else getEnvVarUtil env key

/-- Bodies the gate writes: the JSON error shape with fields success and
error, the chat-completion shaped refusal of the historical authenticateUser
(role, content, finish_reason and the three zero usage counters), and the
empty body of res.end(). -/
inductive RespBody where
  | json (success : Bool) (error : String)
  | chatCompletion (role : String) (content : String) (finishReason : String)
      (promptTokens : Nat) (completionTokens : Nat) (totalTokens : Nat)
  | emptyBody
deriving DecidableEq, Repr

/-- The outgoing response object: the four CORS headers the code sets, the
HTTP status, the body, and whether the response has been sent. -/
structure Response where
  allowOrigin : Option String := none
  allowCredentials : Option String := none
  allowMethods : Option String := none
  allowHeaders : Option String := none
  status : Option Nat := none
  body : Option RespBody := none
  ended : Bool := false
deriving DecidableEq, Repr

/-- A fresh response object, before any handler code runs. -/
def Response.init : Response := {}

/-- Embeds res.status(code).json(b): sets status and body and sends. -/
def Response.sendJson (r : Response) (code : Nat) (b : RespBody) : Response :=
  { r with status := some code, body := some b, ended := true }

/-- Embeds res.status(code).end(): sets status, empty body, and sends. -/
def Response.sendEmpty (r : Response) (code : Nat) : Response :=
  { r with status := some code, body := some RespBody.emptyBody, ended := true }

/-- The value of the Access-Control-Allow-Methods header both CORS versions
set. -/
def allowMethodsStr : String := "GET, POST, PUT, DELETE, OPTIONS"

/-- The value of the Access-Control-Allow-Headers header both CORS versions
set. -/
def allowHeadersStr : String := "Content-Type, Authorization, X-Requested-With"

/-- Result of configureCORS: the mutated response and the boolean the
function returns (true means preflight was handled and the caller must stop).
-/
structure CorsResult where
  res : Response
  handled : Bool
deriving DecidableEq, Repr

/-- Embeds the common tail of both configureCORS versions: if the method is
OPTIONS, send 200 with an empty body and return true, else return false. -/
def finishCors (r : Response) (method : String) : CorsResult :=
  if method == "OPTIONS" then
    { res := r.sendEmpty 200, handled := true }
  else
    { res := r, handled := false }

/-- Splits a character list at every comma; the JS s.split(",") semantics:
the empty string yields one empty piece, a trailing comma yields a trailing
empty piece. -/
def splitCommaChars : List Char → List (List Char)
  | [] => [[]]
  | c :: rest =>
    match splitCommaChars rest with
    | [] => [[c]]
    | h :: t => if c == Char.ofNat 44 then [] :: h :: t else (c :: h) :: t

/-- JS s.split(",") on strings, via the character list. -/
def jsSplitComma (s : String) : List String :=
  (splitCommaChars s.data).map String.mk

/-- JS s.trim(): drop whitespace characters from both ends. -/
def jsTrim (s : String) : String :=
  String.mk
    (((s.data.dropWhile Char.isWhitespace).reverse.dropWhile
        Char.isWhitespace).reverse)

/-- JS s.startsWith(p), via the character lists. -/
def jsStartsWith (s p : String) : Bool :=
  p.data.isPrefixOf s.data

/-- JS s.substring(n) for ASCII content: drop the first n characters. -/
def jsSubstringFrom (s : String) (n : Nat) : String :=
  String.mk (s.data.drop n)

/-- Embeds the comma-split-trim of the ALLOWED_ORIGINS value (JS
s.split(",").map(trim)). -/
def splitOrigins (s : String) : List String :=
  (jsSplitComma s).map jsTrim

/-- Embeds configureCORS of src/api/middleware/cors.ts: wildcard when
CORS_ALLOW_ALL is "true"; else echo a listed origin or fall back to the first
list entry or the wildcard; else wildcard; then the three fixed headers and
the OPTIONS preflight short-circuit. -/
def configureCORS (env : Env) (originHdr : Option String) (method : String)
    (r : Response) : CorsResult :=
  let allowedOriginsEnv := env.lookup EnvKey.ALLOWED_ORIGINS
  let corsAllowAll := env.lookup EnvKey.CORS_ALLOW_ALL == some ("true")
  let r1 :=
    if corsAllowAll then
      { r with allowOrigin := some ("*") }
    else if truthy allowedOriginsEnv then
      let allowedOrigins := splitOrigins (allowedOriginsEnv.getD (""))
      if truthy originHdr && allowedOrigins.contains (originHdr.getD ("")) then
        { r with allowOrigin := originHdr }
      else
        { r with allowOrigin := some (jsOr (allowedOrigins.headD ("")) ("*")) }
    else
      { r with allowOrigin := some ("*") }
  finishCors
    { r1 with allowCredentials := some ("true"),
              allowMethods := some allowMethodsStr,
              allowHeaders := some allowHeadersStr } method

/-- The char with code 46, a dot. -/
def isDot (c : Char) : Bool := c == Char.ofNat 46

/-- JS line terminators, the characters the dot of a JS regex does not match:
LF, CR, LINE SEPARATOR, PARAGRAPH SEPARATOR. -/
def isLineTerm (c : Char) : Bool :=
  c == Char.ofNat 10 || c == Char.ofNat 13 ||
  c == Char.ofNat 0x2028 || c == Char.ofNat 0x2029

/-- The literal part of the preview-deployment pattern before the label. -/
def unigraphGitStem : String := "https://unigraph-git-"

/-- The literal part of the preview-deployment pattern after the label. -/
def vercelAppDot : String := ".vercel.app"

/-- Core of the preview-pattern regex test over a character list. The JS
regex anchored at both ends reads: the stem literal, then one or more
non-dot characters, then the literal dot-vercel-dot-app, then any characters
the JS dot matches (no line terminators) up to the end. Because the label may
not contain a dot and is followed by a literal dot, the label is exactly the
run of characters up to the first dot after the stem, so the split is
deterministic. -/
def matchCore (cs : List Char) : Bool :=
  if unigraphGitStem.toList.isPrefixOf cs then
    let rest := cs.drop unigraphGitStem.toList.length
    let mid := rest.takeWhile (fun c => !(isDot c))
    let after := rest.drop mid.length
    !(mid.isEmpty) && vercelAppDot.toList.isPrefixOf after &&
      (after.drop vercelAppDot.toList.length).all (fun c => !(isLineTerm c))
  else false

/-- Embeds unigraphGitPattern.test(origin) of src/unnamed/part_000 line 73. -/
def unigraphGitMatches (s : String) : Bool :=
  matchCore s.data

/-- Embeds the JS push-if-absent of src/unnamed/part_000 lines 53 to 66. -/
def pushUnique (l : List String) (x : String) : List String :=
  if l.contains x then l else l ++ [x]

/-- Embeds configureCORS of src/unnamed/part_000 (the Vercel-aware variant):
initial wildcard or allow-list selection, the auto-detected deployment origin
appended to the list, the preview-pattern early-return branch, then the
echo/first-entry/wildcard fallback chain and the fixed headers. Note that the
preview-pattern check and the fallback chain run in every case, including
when CORS_ALLOW_ALL already set the wildcard header, which they overwrite. -/
def configureCORSVercel (env : Env) (originHdr : Option String)
    (method : String) (r : Response) : CorsResult :=
  let allowedOriginsEnv := getEnvVarCors env EnvKey.ALLOWED_ORIGINS
  let corsAllowAll := getEnvVarCors env EnvKey.CORS_ALLOW_ALL == some ("true")
  let vercelUrl := getEnvVarCors env EnvKey.VERCEL_URL
  let vercelEnv := getEnvVarCors env EnvKey.VERCEL_ENV
  let r1 :=
    if corsAllowAll then { r with allowOrigin := some ("*") } else r
  let allowedOrigins0 : List String :=
    if corsAllowAll then []
    else if truthy allowedOriginsEnv then
      splitOrigins (allowedOriginsEnv.getD (""))
    else ["http://localhost:3000"]
  let allowedOrigins1 :=
    if truthy vercelUrl then
      pushUnique allowedOrigins0 ("https://" ++ vercelUrl.getD (""))
    else allowedOrigins0
  let allowedOrigins :=
    if vercelEnv == some ("preview") && truthy vercelUrl then
      pushUnique allowedOrigins1 ("https://" ++ vercelUrl.getD (""))
    else allowedOrigins1
  if truthy originHdr && unigraphGitMatches (originHdr.getD ("")) then
    finishCors
      { r1 with allowOrigin := originHdr,
                allowCredentials := some ("true"),
                allowMethods := some allowMethodsStr,
                allowHeaders := some allowHeadersStr } method
  else
    let r2 :=
      if truthy originHdr && allowedOrigins.contains (originHdr.getD ("")) then
        { r1 with allowOrigin := originHdr }
      else if 0 < allowedOrigins.length then
        { r1 with allowOrigin := some (allowedOrigins.headD ("")) }
      else
        { r1 with allowOrigin := some ("*") }
    finishCors
      { r2 with allowCredentials := some ("true"),
                allowMethods := some allowMethodsStr,
                allowHeaders := some allowHeadersStr } method

/-- The user record the external authority returns inside data.user: the
email and role fields may be absent. -/
structure AuthUser where
  id : String
  email : Option String := none
  role : Option String := none
deriving DecidableEq, Repr

/-- Outcome of the call await supabase.auth.getUser(): the data.user field
and the error field. Per the supabase-js contract all failures, including
transport failures, are returned in the error field rather than thrown. -/
structure VerifyOutcome where
  user : Option AuthUser := none
  error : Option String := none
deriving DecidableEq, Repr

/-- The user object authenticateUser attaches to the request on success. -/
structure ReqUser where
  id : String
  email : String
  role : String
deriving DecidableEq, Repr

/-- Result of authenticateUser: the mutated response, the returned boolean,
the user attached to the request (none when not set), and the token sent to
the external identity authority (none when the authority was never called).
-/
structure AuthOutcome where
  res : Response
  ok : Bool
  reqUser : Option ReqUser := none
  authorityToken : Option String := none
deriving DecidableEq, Repr

/-- Error string of the canonical empty-whitelist 500 response. -/
def approvedUsersMissingMsg : String :=
  "APPROVED_USERS environment variable is not set or is empty. Access denied."

/-- Error string of the historical empty-whitelist 500 response. -/
def approvedUsersMissingMsgLegacy : String :=
  "APPROVED_USERS environment variable is not set. Access denied."

/-- Error string of the missing-or-malformed Authorization header response. -/
def authHeaderRequiredMsg : String :=
  "Authorization header required. Format: Bearer <token>"

/-- Error string of the missing Supabase configuration response. -/
def supabaseMissingMsg : String := "Missing Supabase configuration"

/-- Leading part of the canonical invalid-token error string, before the
authority-supplied detail. -/
def invalidTokenBase : String := "Invalid or expired token: "

/-- Default detail when the authority supplies no error message. -/
def unknownErrorMsg : String := "Unknown error"

/-- Error string of the historical invalid-token response (no detail). -/
def invalidTokenMsgLegacy : String := "Invalid or expired token"

/-- Error string of the not-on-the-whitelist 401 response. -/
def notAuthorizedMsg : String := "User is not authorized"

/-- Content of the chat-completion shaped refusal the historical
authenticateUser sends with status 200. -/
def accessRefusalContent : String :=
  "I\x27m sorry, but you don\x27t have access to this chat feature yet. Please email aesgraph@gmail.com to request access. I\x27ll be happy to help you once you\x27re approved!"

/-- Error string of the 405 response of the protected chat handler. -/
def methodNotAllowedMsg : String :=
  "Method not allowed. Use POST to send chat messages."

/-- The required header scheme, with its trailing space. -/
def bearerScheme : String := "Bearer "

/-- The fixed synthetic identity of the development bypass. -/
def devUser : ReqUser :=
  { id := "dev-user-id", email := "dev@localhost", role := "admin" }

/-- Embeds getApprovedUsers of src/api/middleware/auth.ts (lines 26 to 33):
split the APPROVED_USERS value on commas, trim each entry, drop falsy
(empty) entries. -/
def getApprovedUsers (env : Env) : List String :=
  let approvedUsersEnv := jsOr (getEnvValue env EnvKey.APPROVED_USERS) ""
  ((jsSplitComma approvedUsersEnv).map jsTrim).filter (fun e => e != "")

/-- Embeds the whitelist membership test of auth.ts line 137: user.email must
be truthy and contained in the approved list. -/
def emailApproved (approved : List String) (email : Option String) : Bool :=
  truthy email && approved.contains (jsOr email (""))

/-- Embeds isWhitelistEmpty of auth.ts lines 63 to 66: the APPROVED_USERS
value is falsy, or is whitespace only, or parses to an empty list. -/
def whitelistEmpty (env : Env) : Bool :=
  let APPROVED_USERS := getApprovedUsers env
  let approvedUsersEnv := getEnvValue env EnvKey.APPROVED_USERS
  !(truthy approvedUsersEnv) || jsTrim (approvedUsersEnv.getD ("")) == "" ||
    APPROVED_USERS.length == 0

/-- Embeds the Authorization header test of auth.ts line 82: the header is
truthy and starts with the exact case-sensitive scheme "Bearer ". -/
def hasBearerHeader (authHeader : Option String) : Bool :=
  truthy authHeader && jsStartsWith (authHeader.getD ("")) bearerScheme

/-- Embeds the Supabase configuration test of auth.ts line 97: the URL or the
anon key is falsy. -/
def supabaseMissing (env : Env) : Bool :=
  !(truthy (getEnvValue env EnvKey.SUPABASE_URL)) ||
    !(truthy (getEnvValue env EnvKey.SUPABASE_ANON_KEY))

/-- Embeds authenticateUser of src/api/middleware/auth.ts (the canonical
version, lines 35 to 161): development bypass, then the runtime empty
whitelist check, then the Authorization header check, then the Supabase
configuration check, then token verification by the external authority, then
the whitelist membership check, then attaching the user. -/
def authenticateUser (env : Env) (authHeader : Option String)
    (verify : VerifyOutcome) (r : Response) : AuthOutcome :=
  let isDevelopment := getEnvValue env EnvKey.NODE_ENV == some ("development")
  if isDevelopment then
    { res := r, ok := true, reqUser := some devUser, authorityToken := none }
  else
    let APPROVED_USERS := getApprovedUsers env
    if whitelistEmpty env then
      { res := r.sendJson 500 (RespBody.json false approvedUsersMissingMsg),
        ok := false }
    else
      if !(hasBearerHeader authHeader) then
        { res := r.sendJson 401 (RespBody.json false authHeaderRequiredMsg),
          ok := false }
      else
        let token := jsSubstringFrom (authHeader.getD ("")) 7
        if supabaseMissing env then
          { res := r.sendJson 500 (RespBody.json false supabaseMissingMsg),
            ok := false }
        else
          if verify.error.isSome || verify.user.isNone then
            { res := r.sendJson 401 (RespBody.json false
                (invalidTokenBase ++ jsOr verify.error unknownErrorMsg)),
              ok := false, authorityToken := some token }
          else
            let user := verify.user.getD { id := "" }
            if !(emailApproved APPROVED_USERS user.email) then
              { res := r.sendJson 401 (RespBody.json false notAuthorizedMsg),
                ok := false, authorityToken := some token }
            else
              { res := r, ok := true,
                reqUser := some { id := user.id,
                                  email := jsOr user.email (""),
                                  role := jsOr user.role ("user") },
                authorityToken := some token }

/-- Embeds authenticateUser of src/unnamed/part_001 (the historical version,
lines 18 to 128): module-level whitelist from process.env, empty-whitelist
500 only outside development, the same header and Supabase configuration
checks, the undetailed invalid-token 401, and on whitelist rejection a 200
response shaped like a chat completion carrying a refusal message. -/
def authenticateUserLegacy (env : Env) (authHeader : Option String)
    (verify : VerifyOutcome) (r : Response) : AuthOutcome :=
  let APPROVED_USERS :=
    ((jsSplitComma (jsOr (env.lookup EnvKey.APPROVED_USERS) "")).map
      jsTrim).filter (fun e => e != "")
  let wlUnset :=
    !(truthy (env.lookup EnvKey.APPROVED_USERS)) ||
      APPROVED_USERS.length == 0
  let isDev := env.lookup EnvKey.NODE_ENV == some ("development")
  if wlUnset && !isDev then
    { res := r.sendJson 500
        (RespBody.json false approvedUsersMissingMsgLegacy), ok := false }
  else
    if !(hasBearerHeader authHeader) then
      { res := r.sendJson 401 (RespBody.json false authHeaderRequiredMsg),
        ok := false }
    else
      let token := jsSubstringFrom (authHeader.getD ("")) 7
      if !(truthy (env.lookup EnvKey.SUPABASE_URL)) ||
          !(truthy (env.lookup EnvKey.SUPABASE_ANON_KEY)) then
        { res := r.sendJson 500 (RespBody.json false supabaseMissingMsg),
          ok := false }
      else
        if verify.error.isSome || verify.user.isNone then
          { res := r.sendJson 401
              (RespBody.json false invalidTokenMsgLegacy),
            ok := false, authorityToken := some token }
        else
          let user := verify.user.getD { id := "" }
          let bypassWhitelist := isDev && wlUnset
          if !bypassWhitelist && !(emailApproved APPROVED_USERS user.email)
          then
            { res := r.sendJson 200
                (RespBody.chatCompletion ("assistant") accessRefusalContent
                  ("stop") 0 0 0),
              ok := false, authorityToken := some token }
          else
            { res := r, ok := true,
              reqUser := some { id := user.id,
                                email := jsOr user.email (""),
                                role := jsOr user.role ("user") },
              authorityToken := some token }

/-- Result of the protected chat handler up to and including the gate: the
response, the token sent to the identity authority (none means no call),
whether authenticateUser was invoked, and whether control passed the gate
into the chat-relay business logic. -/
structure HandlerOutcome where
  res : Response
  authorityToken : Option String := none
  ranAuth : Bool := false
  reachedChat : Bool := false
deriving DecidableEq, Repr

/-- Embeds the gate portion of the default handler of src/unnamed/part_003
(lines 39 to 61): configureCORS first (preflight short-circuits), then the
POST-only method check with its 405 response, then authenticateUser; only
when it returns true does control reach the chat-relay logic. -/
def handler (env : Env) (originHdr : Option String) (method : String)
    (authHeader : Option String) (verify : VerifyOutcome) : HandlerOutcome :=
  let c := configureCORS env originHdr method Response.init
  if c.handled then
    { res := c.res }
  else if method != "POST" then
    { res := c.res.sendJson 405 (RespBody.json false methodNotAllowedMsg) }
  else
    let a := authenticateUser env authHeader verify c.res
    if !a.ok then
      { res := a.res, authorityToken := a.authorityToken, ranAuth := true }
    else
      { res := a.res, authorityToken := a.authorityToken, ranAuth := true,
        reachedChat := true }

/-- Both CORS versions report preflight handled exactly when the method is
OPTIONS. -/
theorem finishCors_handled (r : Response) (m : String) :
    (finishCors r m).handled = (m == "OPTIONS") := by
  unfold finishCors; split <;> simp_all

/-- The preflight tail does not change the Access-Control-Allow-Origin
header. -/
theorem finishCors_allowOrigin (r : Response) (m : String) :
    (finishCors r m).res.allowOrigin = r.allowOrigin := by
  unfold finishCors; split <;> simp [Response.sendEmpty]

/-- The preflight tail does not change the Access-Control-Allow-Credentials
header. -/
theorem finishCors_allowCredentials (r : Response) (m : String) :
    (finishCors r m).res.allowCredentials = r.allowCredentials := by
  unfold finishCors; split <;> simp [Response.sendEmpty]

/-- The middleware configureCORS returns true exactly on OPTIONS requests. -/
theorem configureCORS_handled (env : Env) (o : Option String) (m : String)
    (r : Response) : (configureCORS env o m r).handled = (m == "OPTIONS") := by
  unfold configureCORS
  simp [finishCors_handled]

/-- When the request origin matches the preview-deployment pattern, the
Vercel-aware configureCORS takes the early-return branch: it echoes the
origin, marks credentials allowed, sets the two fixed header values, and the
result does not depend on the environment (in particular not on the static
origin allow-list). -/
theorem corsVercel_previewPattern (env : Env) (o : String) (method : String)
    (r : Response) (hm : unigraphGitMatches o = true) :
    configureCORSVercel env (some o) method r =
      finishCors
        { r with
            allowOrigin := some o,
            allowCredentials := some ("true"),
            allowMethods := some allowMethodsStr,
            allowHeaders := some allowHeadersStr } method := by
  have ho : o ≠ "" := by
    rintro rfl
    exact absurd hm (by decide)
  have ht : truthy (some o) = true := by
    simp [truthy]
    exact ho
  unfold configureCORSVercel
  simp [getEnvVarCors, ht, hm]
  split <;> rfl

/-- Claim C8: when the runtime mode is development, authenticateUser bypasses
verification and the allow-list entirely and succeeds unconditionally with
the fixed synthetic identity (id dev-user-id, email dev at localhost, role
admin), independent of the Authorization header and of the authority outcome,
and without any call to the external identity authority. -/
theorem authenticateUser_devBypass (env : Env) (authHeader : Option String)
    (verify : VerifyOutcome) (r : Response)
    (hdev : getEnvValue env EnvKey.NODE_ENV = some ("development")) :
    authenticateUser env authHeader verify r =
      { res := r, ok := true, reqUser := some devUser,
        authorityToken := none } := by
  unfold authenticateUser
  simp [hdev]

/-- Witness for C8 at a concrete development environment, a garbage header
and an authority that would have failed. -/
theorem authenticateUser_devBypass_witness :
    authenticateUser { NODE_ENV := some ("development") } (some ("garbage"))
        { error := some ("boom") } Response.init =
      { res := Response.init, ok := true, reqUser := some devUser,
        authorityToken := none } :=
  authenticateUser_devBypass _ _ _ _ (by decide)

/-- Claim C2: in non-development mode with APPROVED_USERS unset, empty or
whitespace-only, authenticateUser responds 500 with a JSON body whose error
string mentions APPROVED_USERS and returns failure, never calls the external
authority, and its outcome is independent of the Authorization header and of
the authority outcome (the check runs before any header inspection). -/
theorem authenticateUser_emptyWhitelist500 (env : Env)
    (h1 h2 : Option String) (v1 v2 : VerifyOutcome) (r : Response)
    (hdev : getEnvValue env EnvKey.NODE_ENV ≠ some ("development"))
    (hempty : jsTrim ((getEnvValue env EnvKey.APPROVED_USERS).getD ("")) = "") :
    (authenticateUser env h1 v1 r).res.status = some 500 ∧
    (authenticateUser env h1 v1 r).res.body =
      some (RespBody.json false approvedUsersMissingMsg) ∧
    (authenticateUser env h1 v1 r).ok = false ∧
    (authenticateUser env h1 v1 r).authorityToken = none ∧
    authenticateUser env h1 v1 r = authenticateUser env h2 v2 r ∧
    ∃ x y, approvedUsersMissingMsg = x ++ "APPROVED_USERS" ++ y := by
  have hd : (getEnvValue env EnvKey.NODE_ENV == some ("development")) = false :=
    beq_eq_false_iff_ne.mpr hdev
  have hwl : whitelistEmpty env = true := by
    unfold whitelistEmpty
    have h : (jsTrim ((getEnvValue env EnvKey.APPROVED_USERS).getD ("")) == "")
        = true := beq_iff_eq.mpr hempty
    simp [h]
  unfold authenticateUser
  simp [hd, hwl, Response.sendJson]
  exact ⟨"", " environment variable is not set or is empty. Access denied.",
    rfl⟩

/-- Witness for C2: production mode, whitespace-only allow-list, a valid
bearer token that the authority would accept. -/
theorem authenticateUser_emptyWhitelist500_witness :
    (authenticateUser
        { NODE_ENV := some ("production"), APPROVED_USERS := some ("   ") }
        (some ("Bearer validtoken"))
        { user := some { id := "u0", email := some ("alice@example.com") } }
        Response.init).res.status = some 500 :=
  (authenticateUser_emptyWhitelist500 _ _ none _ { } _ (by decide)
    (by decide)).1

/-- Claim C4: in non-development mode with a configured allow-list, a request
whose Authorization header is absent, falsy, or does not start with the exact
case-sensitive scheme Bearer-space (for example a lowercase bearer scheme)
gets a 401 with the required-header error string, authenticateUser returns
failure, and no call is made to the external identity authority (the outcome
is independent of the authority outcome). -/
theorem authenticateUser_badHeader401 (env : Env) (h : Option String)
    (v1 v2 : VerifyOutcome) (r : Response)
    (hdev : getEnvValue env EnvKey.NODE_ENV ≠ some ("development"))
    (hwl : whitelistEmpty env = false)
    (hhdr : hasBearerHeader h = false) :
    (authenticateUser env h v1 r).res.status = some 401 ∧
    (authenticateUser env h v1 r).res.body =
      some (RespBody.json false authHeaderRequiredMsg) ∧
    (authenticateUser env h v1 r).ok = false ∧
    (authenticateUser env h v1 r).authorityToken = none ∧
    authenticateUser env h v1 r = authenticateUser env h v2 r := by
  have hd : (getEnvValue env EnvKey.NODE_ENV == some ("development")) = false :=
    beq_eq_false_iff_ne.mpr hdev
  unfold authenticateUser
  simp [hd, hwl, hhdr, Response.sendJson]

/-- Witness for C4 at a lowercase bearer scheme in production with a
non-empty allow-list. -/
theorem authenticateUser_badHeader401_witness :
    (authenticateUser
        { NODE_ENV := some ("production"),
          APPROVED_USERS := some ("alice@example.com") }
        (some ("bearer sometoken")) { } Response.init).res.status = some 401 :=
  (authenticateUser_badHeader401 _ _ { } { error := some ("x") } _
    (by decide) (by decide) (by decide)).1

/-- Claim C5: for a method that is neither POST nor OPTIONS, the protected
chat handler responds 405 with the method-not-allowed error before invoking
authenticateUser: no authentication runs, no token is ever sent to the
identity authority, the chat logic is not reached, and the outcome is
independent of the Authorization header and of the authority outcome. -/
theorem handler_methodNotAllowed405 (env : Env) (origin : Option String)
    (method : String) (h1 h2 : Option String) (v1 v2 : VerifyOutcome)
    (hpost : method ≠ "POST") (hopt : method ≠ "OPTIONS") :
    (handler env origin method h1 v1).res.status = some 405 ∧
    (handler env origin method h1 v1).res.body =
      some (RespBody.json false methodNotAllowedMsg) ∧
    (handler env origin method h1 v1).ranAuth = false ∧
    (handler env origin method h1 v1).authorityToken = none ∧
    (handler env origin method h1 v1).reachedChat = false ∧
    handler env origin method h1 v1 = handler env origin method h2 v2 := by
  have hc : ∀ r, (configureCORS env origin method r).handled = false :=
    fun r => by
      rw [configureCORS_handled]; exact beq_eq_false_iff_ne.mpr hopt
  have hp : (method != "POST") = true := bne_iff_ne.mpr hpost
  unfold handler
  simp [hc, hp, Response.sendJson]

/-- Witness for C5 at a GET request carrying a valid-looking bearer token. -/
theorem handler_methodNotAllowed405_witness :
    (handler { } (some ("https://a.example")) ("GET")
      (some ("Bearer tok")) { }).res.status = some 405 :=
  (handler_methodNotAllowed405 _ _ _ _ none _ { error := some ("x") }
    (by decide) (by decide)).1

/-- Claim C6: with a well-formed Bearer header in non-development mode, a
non-empty allow-list and Supabase connection info configured, any
non-success verification outcome (authority-reported error of any kind, or a
response without a user) yields a 401 whose error string is the
invalid-or-expired-token message followed by the authority detail (or the
unknown-error default), authenticateUser returns failure, and the token was
sent to the authority. -/
theorem authenticateUser_invalidToken401 (env : Env) (h : Option String)
    (v : VerifyOutcome) (r : Response)
    (hdev : getEnvValue env EnvKey.NODE_ENV ≠ some ("development"))
    (hwl : whitelistEmpty env = false)
    (hhdr : hasBearerHeader h = true)
    (hsb : supabaseMissing env = false)
    (hfail : (v.error.isSome || v.user.isNone) = true) :
    (authenticateUser env h v r).res.status = some 401 ∧
    (authenticateUser env h v r).res.body =
      some (RespBody.json false
        (invalidTokenBase ++ jsOr v.error unknownErrorMsg)) ∧
    (authenticateUser env h v r).ok = false ∧
    (authenticateUser env h v r).authorityToken =
      some (jsSubstringFrom (h.getD ("")) 7) := by
  have hd : (getEnvValue env EnvKey.NODE_ENV == some ("development")) = false :=
    beq_eq_false_iff_ne.mpr hdev
  unfold authenticateUser
  simp [hd, hwl, hhdr, hsb, hfail, Response.sendJson]

/-- Witness for C6 at an authority-rejected token. -/
theorem authenticateUser_invalidToken401_witness :
    (authenticateUser
        { NODE_ENV := some ("production"),
          APPROVED_USERS := some ("alice@example.com"),
          SUPABASE_URL := some ("https://sb.example"),
          SUPABASE_ANON_KEY := some ("anonkey") }
        (some ("Bearer tok123")) { error := some ("jwt expired") }
        Response.init).res.body =
      some (RespBody.json false ("Invalid or expired token: jwt expired")) :=
  ((authenticateUser_invalidToken401 _ _ _ _
    (by decide) (by decide) (by decide) (by decide) (by decide)).2.1).trans
    (by decide)

/-- Claim C3: with the gate reaching verification (non-development mode,
non-empty allow-list, well-formed Bearer header, Supabase configured): a
successfully verified identity whose email is not approved gets a 401 with
exactly the user-is-not-authorized error; a failed verification gets a 401
whose error is the invalid-or-expired-token message plus detail; and no
string of the latter shape equals the former, so a rejected token never
receives the not-authorized response (the membership check runs only after
successful verification). -/
theorem authenticateUser_notAuthorized401 (env : Env) (h : Option String)
    (v : VerifyOutcome) (r : Response)
    (hdev : getEnvValue env EnvKey.NODE_ENV ≠ some ("development"))
    (hwl : whitelistEmpty env = false)
    (hhdr : hasBearerHeader h = true)
    (hsb : supabaseMissing env = false) :
    (∀ u : AuthUser, v.error = none → v.user = some u →
      emailApproved (getApprovedUsers env) u.email = false →
      (authenticateUser env h v r).res.status = some 401 ∧
      (authenticateUser env h v r).res.body =
        some (RespBody.json false notAuthorizedMsg) ∧
      (authenticateUser env h v r).ok = false) ∧
    ((v.error.isSome || v.user.isNone) = true →
      (authenticateUser env h v r).res.status = some 401 ∧
      (authenticateUser env h v r).res.body =
        some (RespBody.json false
          (invalidTokenBase ++ jsOr v.error unknownErrorMsg))) ∧
    (∀ d : String, invalidTokenBase ++ d ≠ notAuthorizedMsg) := by
  have hd : (getEnvValue env EnvKey.NODE_ENV == some ("development")) = false :=
    beq_eq_false_iff_ne.mpr hdev
  refine ⟨?_, ?_, ?_⟩
  · intro u he hu hem
    unfold authenticateUser
    simp [hd, hwl, hhdr, hsb, he, hu, hem, Response.sendJson]
  · intro hfail
    unfold authenticateUser
    simp [hd, hwl, hhdr, hsb, hfail, Response.sendJson]
  · intro d hcontra
    have hlen := congrArg String.length hcontra
    rw [String.length_append] at hlen
    have h1 : invalidTokenBase.length = 26 := by decide
    have h2 : notAuthorizedMsg.length = 22 := by decide
    rw [h1, h2] at hlen
    omega

/-- Witness for C3 at a verified identity with an unapproved email. -/
theorem authenticateUser_notAuthorized401_witness :
    (authenticateUser
        { NODE_ENV := some ("production"),
          APPROVED_USERS := some ("alice@example.com"),
          SUPABASE_URL := some ("https://sb.example"),
          SUPABASE_ANON_KEY := some ("anonkey") }
        (some ("Bearer tok123"))
        { user := some { id := "u1", email := some ("mallory@example.com") } }
        Response.init).res.body =
      some (RespBody.json false notAuthorizedMsg) :=
  ((authenticateUser_notAuthorized401 _ _ _ _
      (by decide) (by decide) (by decide) (by decide)).1
    { id := "u1", email := some ("mallory@example.com") } rfl rfl
    (by decide)).2.1

/-- Counterexample for C1: with the allow-all flag set to true AND an
auto-detected deployment origin (VERCEL_URL) configured, the Vercel-aware
configureCORS does not leave the wildcard header in place for an unlisted
request origin: the wildcard written by the allow-all branch is overwritten
by the deployment origin in the fallback chain. -/
theorem corsAllowAllWildcard_cx :
    (configureCORSVercel
        { CORS_ALLOW_ALL := some ("true"),
          VERCEL_URL := some ("unigraph-routes.vercel.app") }
        (some ("https://evil.example")) ("GET") Response.init).res.allowOrigin =
      some ("https://unigraph-routes.vercel.app") ∧
    (configureCORSVercel
        { CORS_ALLOW_ALL := some ("true"),
          VERCEL_URL := some ("unigraph-routes.vercel.app") }
        (some ("https://evil.example")) ("GET") Response.init).res.allowOrigin ≠
      some ("*") := by
  constructor
  · decide
  · decide

/-- The auto-detected deployment origin string can never be the wildcard:
it starts with the https scheme. -/
theorem httpsAppendNeStar (s : String) : ("https://" ++ s) ≠ "*" := by
  intro h
  have hlen := congrArg String.length h
  rw [String.length_append] at hlen
  have h8 : ("https://").length = 8 := by decide
  have h1 : ("*").length = 1 := by decide
  rw [h8, h1] at hlen
  omega

/-- A string matched by the preview pattern can never be the wildcard. -/
theorem matchesNeStar (s : String) (hm : unigraphGitMatches s = true) :
    s ≠ "*" := by
  rintro rfl
  exact absurd hm (by decide)

/-- With the allow-all flag true and a truthy deployment origin, when the
request origin does not take the preview-pattern branch, the fallback chain
of the Vercel-aware configureCORS always ends at the deployment origin: the
allow-all branch left the list empty, so the list is exactly the singleton
of the deployment origin, which is echoed (when the request origin equals
it) or chosen as first entry. -/
theorem corsVercel_allowAll_fallback (env : Env) (o : Option String)
    (method : String) (r : Response)
    (hall : env.lookup EnvKey.CORS_ALLOW_ALL = some ("true"))
    (hv : truthy (env.lookup EnvKey.VERCEL_URL) = true)
    (hp : (truthy o && unigraphGitMatches (o.getD (""))) = false) :
    (configureCORSVercel env o method r).res.allowOrigin =
      some ("https://" ++ (env.lookup EnvKey.VERCEL_URL).getD ("")) := by
  have ha : (env.lookup EnvKey.CORS_ALLOW_ALL == some ("true")) = true :=
    beq_iff_eq.mpr hall
  unfold configureCORSVercel
  simp only [getEnvVarCors, ha, hv, hp, if_true, Bool.false_eq_true, if_false,
    finishCors_allowOrigin, pushUnique]
  by_cases hb : (env.lookup EnvKey.VERCEL_ENV == some ("preview")) = true
  all_goals simp only [hb, if_true, Bool.false_eq_true, if_false]
  all_goals simp only [List.contains_nil, List.nil_append, Bool.false_eq_true,
    if_false, List.contains_cons, BEq.refl, Bool.true_or, if_true]
  all_goals
    rcases o with _ | s
    · simp [truthy]
    · by_cases hs : s = "https://" ++ (env.lookup EnvKey.VERCEL_URL).getD ("")
      · subst hs
        split <;> simp_all
      · simp [hs]

/-- Claim C1 (amended): with the allow-all flag true, the middleware
configureCORS always answers the wildcard origin regardless of the request
origin; the Vercel-aware configureCORS answers the wildcard exactly when no
deployment origin is auto-detected and the request origin does not take the
preview-pattern branch — in every other case (a truthy VERCEL_URL, or a
pattern-matching origin) the wildcard written by the allow-all branch is
overwritten. -/
theorem corsAllowAllWildcard_amended (env : Env) (o : Option String)
    (method : String) (r : Response)
    (hall : env.lookup EnvKey.CORS_ALLOW_ALL = some ("true")) :
    (configureCORS env o method r).res.allowOrigin = some ("*") ∧
    ((configureCORSVercel env o method r).res.allowOrigin = some ("*") ↔
      truthy (env.lookup EnvKey.VERCEL_URL) = false ∧
      (truthy o && unigraphGitMatches (o.getD (""))) = false) := by
  have ha : (env.lookup EnvKey.CORS_ALLOW_ALL == some ("true")) = true :=
    beq_iff_eq.mpr hall
  constructor
  · unfold configureCORS
    simp [ha, finishCors_allowOrigin]
  · constructor
    · intro hw
      have hp : (truthy o && unigraphGitMatches (o.getD (""))) = false := by
        by_contra hcon
        have hpt : (truthy o && unigraphGitMatches (o.getD (""))) = true := by
          revert hcon
          cases (truthy o && unigraphGitMatches (o.getD (""))) <;> simp
        have hsplit := hpt
        simp only [Bool.and_eq_true] at hsplit
        obtain ⟨hto, hmt⟩ := hsplit
        cases o with
        | none => simp [truthy] at hto
        | some s =>
          have hrw := corsVercel_previewPattern env s method r hmt
          rw [hrw, finishCors_allowOrigin] at hw
          simp at hw
          exact matchesNeStar s hmt hw
      refine ⟨?_, hp⟩
      by_contra hvcon
      have hvt : truthy (env.lookup EnvKey.VERCEL_URL) = true := by
        revert hvcon
        cases truthy (env.lookup EnvKey.VERCEL_URL) <;> simp
      rw [corsVercel_allowAll_fallback env o method r hall hvt hp] at hw
      simp at hw
      exact httpsAppendNeStar _ hw
    · rintro ⟨hv, hp⟩
      unfold configureCORSVercel
      simp [getEnvVarCors, ha, hv, hp, finishCors_allowOrigin]

/-- Witness for the amended C1 at the evil origin of the end-to-end
scenario, with no deployment origin configured. -/
theorem corsAllowAllWildcard_amended_witness :
    (configureCORS { CORS_ALLOW_ALL := some ("true") }
        (some ("https://evil.example")) ("GET") Response.init).res.allowOrigin =
      some ("*") ∧
    (configureCORSVercel { CORS_ALLOW_ALL := some ("true") }
        (some ("https://evil.example")) ("GET") Response.init).res.allowOrigin =
      some ("*") :=
  ⟨(corsAllowAllWildcard_amended _ _ _ _ (by decide)).1,
   ((corsAllowAllWildcard_amended _ _ _ _ (by decide)).2).mpr
     ⟨by decide, by decide⟩⟩

/-- Claim C7: when the request origin matches the dynamic preview-deployment
pattern, the Vercel-aware configureCORS echoes that exact origin, sets
Access-Control-Allow-Credentials to true, sets the fixed header values and
returns early, with a result completely independent of the environment and
hence of the static origin allow-list (the pattern check has priority over
the static-list lookup). -/
theorem corsVercel_previewEchoes (env : Env) (o : String) (method : String)
    (r : Response) (hm : unigraphGitMatches o = true) :
    configureCORSVercel env (some o) method r =
      finishCors
        { r with
            allowOrigin := some o,
            allowCredentials := some ("true"),
            allowMethods := some allowMethodsStr,
            allowHeaders := some allowHeadersStr } method :=
  corsVercel_previewPattern env o method r hm

/-- Witness for C7 at the preview origin of the end-to-end scenario, with a
static allow-list that does not contain it. -/
theorem corsVercel_previewEchoes_witness :
    configureCORSVercel { ALLOWED_ORIGINS := some ("https://a.example") }
        (some ("https://unigraph-git-feature-x.vercel.app")) ("GET")
        Response.init =
      finishCors
        { Response.init with
            allowOrigin := some ("https://unigraph-git-feature-x.vercel.app"),
            allowCredentials := some ("true"),
            allowMethods := some allowMethodsStr,
            allowHeaders := some allowHeadersStr } ("GET") :=
  corsVercel_previewEchoes _ _ _ _ (by decide)

/-- Environment of the C9 scenario: production mode, an allow-list holding
only alice, Supabase configured. -/
def c9Env : Env :=
  { NODE_ENV := some ("production"),
    APPROVED_USERS := some ("alice@example.com"),
    SUPABASE_URL := some ("https://sb.example"),
    SUPABASE_ANON_KEY := some ("anonkey") }

/-- Authority outcome of the C9 scenario: a successfully verified identity
whose email is not on the allow-list. -/
def c9Verify : VerifyOutcome :=
  { user := some { id := "u1", email := some ("mallory@example.com") } }

set_option maxRecDepth 4096

/-- Claim C9: on the authorization-failure path the two historical
authenticateUser implementations are not equivalent: for a verified identity
whose email is not in the allow-list the canonical version responds 401 with
the JSON error body user-is-not-authorized, while the historical version
responds 200 with a chat-completion shaped body carrying the friendly
refusal message; both return failure; and the two responses differ. -/
theorem authVersionsDiverge :
    (authenticateUser c9Env (some ("Bearer tok123")) c9Verify
        Response.init).res.status = some 401 ∧
    (authenticateUser c9Env (some ("Bearer tok123")) c9Verify
        Response.init).res.body =
      some (RespBody.json false notAuthorizedMsg) ∧
    (authenticateUser c9Env (some ("Bearer tok123")) c9Verify
        Response.init).ok = false ∧
    (authenticateUserLegacy c9Env (some ("Bearer tok123")) c9Verify
        Response.init).res.status = some 200 ∧
    (authenticateUserLegacy c9Env (some ("Bearer tok123")) c9Verify
        Response.init).res.body =
      some (RespBody.chatCompletion ("assistant") accessRefusalContent
        ("stop") 0 0 0) ∧
    (authenticateUserLegacy c9Env (some ("Bearer tok123")) c9Verify
        Response.init).ok = false ∧
    (authenticateUser c9Env (some ("Bearer tok123")) c9Verify
        Response.init).res ≠
      (authenticateUserLegacy c9Env (some ("Bearer tok123")) c9Verify
        Response.init).res := by
  refine ⟨by decide, by decide, by decide, by decide, by decide, by decide,
    by decide⟩

/-- The preview origin stem used to exhibit that the pattern puts no
constraint on what follows the vercel-app host part. -/
def xPreviewStem : String := "https://unigraph-git-x.vercel.app"

/-- The regex test accepts the stem followed by any characters free of JS
line terminators. -/
theorem matchCore_stem_tail (tl : List Char)
    (hln : tl.all (fun c => !(isLineTerm c)) = true) :
    matchCore (xPreviewStem.data ++ tl) = true := by
  have hx : xPreviewStem.data =
      unigraphGitStem.toList ++ (Char.ofNat 120 :: vercelAppDot.toList) := by
    decide
  rw [hx, List.append_assoc]
  have hpre : unigraphGitStem.toList.isPrefixOf
      (unigraphGitStem.toList ++
        ((Char.ofNat 120 :: vercelAppDot.toList) ++ tl)) = true := by
    rw [ List.isPrefixOf_iff_prefix]; exact List.prefix_append _ _
  have hvdot : vercelAppDot.toList ++ tl =
      Char.ofNat 46 :: ("vercel.app".toList ++ tl) := by
    have hv : vercelAppDot.toList = Char.ofNat 46 :: "vercel.app".toList := by
      decide
    rw [hv]; rfl
  have h120 : (!(isDot (Char.ofNat 120))) = true := by decide
  have h46 : (!(isDot (Char.ofNat 46))) = false := by decide
  have htake : ((Char.ofNat 120 :: vercelAppDot.toList ++ tl).takeWhile
      (fun c => !(isDot c))) = [Char.ofNat 120] := by
    rw [List.cons_append, List.takeWhile_cons, hvdot, List.takeWhile_cons]
    simp [h120, h46]
  have hpre2 : vercelAppDot.toList.isPrefixOf (vercelAppDot.toList ++ tl)
      = true := by
    rw [ List.isPrefixOf_iff_prefix]; exact List.prefix_append _ _
  unfold matchCore
  rw [hpre]
  simp only [if_true]
  simp only [List.cons_append] at htake ⊢
  rw [List.drop_left, htake]
  simp [hpre2, List.drop_left, hln]

/-- Claim C10: the dynamic preview-origin matcher accepts the stem followed
by any line-terminator-free tail, with no constraint tying the host to the
vercel-app domain; and for any such origin the Vercel-aware configureCORS
echoes it verbatim in Access-Control-Allow-Origin and sets
Access-Control-Allow-Credentials to true, whatever the environment. -/
theorem previewPatternUnanchoredTail (tl : List Char) (env : Env)
    (method : String) (r : Response)
    (hln : tl.all (fun c => !(isLineTerm c)) = true) :
    unigraphGitMatches (String.mk (xPreviewStem.data ++ tl)) = true ∧
    (configureCORSVercel env (some (String.mk (xPreviewStem.data ++ tl)))
        method r).res.allowOrigin =
      some (String.mk (xPreviewStem.data ++ tl)) ∧
    (configureCORSVercel env (some (String.mk (xPreviewStem.data ++ tl)))
        method r).res.allowCredentials = some ("true") := by
  have hm : unigraphGitMatches (String.mk (xPreviewStem.data ++ tl)) = true :=
    matchCore_stem_tail tl hln
  refine ⟨hm, ?_, ?_⟩
  · rw [corsVercel_previewPattern _ _ _ _ hm, finishCors_allowOrigin]
  · rw [corsVercel_previewPattern _ _ _ _ hm, finishCors_allowCredentials]

/-- Witness for C10 at the concrete origin whose host is an attacker domain,
not a vercel-app subdomain. -/
theorem previewPatternUnanchoredTail_witness :
    String.mk (xPreviewStem.data ++ (".evil.example").data) =
      "https://unigraph-git-x.vercel.app.evil.example" ∧
    unigraphGitMatches
      (String.mk (xPreviewStem.data ++ (".evil.example").data)) = true ∧
    (configureCORSVercel { ALLOWED_ORIGINS := some ("https://a.example") }
        (some (String.mk (xPreviewStem.data ++ (".evil.example").data)))
        ("GET") Response.init).res.allowOrigin =
      some (String.mk (xPreviewStem.data ++ (".evil.example").data)) ∧
    (configureCORSVercel { ALLOWED_ORIGINS := some ("https://a.example") }
        (some (String.mk (xPreviewStem.data ++ (".evil.example").data)))
        ("GET") Response.init).res.allowCredentials = some ("true") :=
  ⟨by decide,
   previewPatternUnanchoredTail (".evil.example").data _ _ _ (by decide)⟩
